import Mathlib

/-!
Shallow embedding of the helm-undeploy repository core: the release
identity resolver and the teardown activities (activities/activities.go),
the teardown orchestrator (workflows/workflow.go), the per-activity
options handed to the execution host, and the run key built by the
submitting client. External collaborators (the Helm release store and
the hosting engine) appear as explicit inputs or as small models of the
collaborator contracts described in the spec.
-/

namespace HelmUndeploy

/-- ASCII alphanumeric test, the character class of the Go regular
expression `[^a-zA-Z0-9]+` in activities.go (generateReleaseName). -/
def isAlphanum (c : Char) : Bool :=
  (('a' ≤ c) && (c ≤ 'z')) || (('A' ≤ c) && (c ≤ 'Z')) || (('0' ≤ c) && (c ≤ '9'))

/-- Replacement of every maximal run of non-alphanumeric characters by a
single hyphen, the effect of `reg.ReplaceAllString(s, "-")` with pattern
`[^a-zA-Z0-9]+` in activities.go. The Boolean argument records whether
the previous character belonged to a non-alphanumeric run already
replaced. -/
def collapseAux : List Char → Bool → List Char
  | [], _ => []
  | c :: rest, prevDash =>
    if isAlphanum c then c :: collapseAux rest false
    else if prevDash then collapseAux rest true
    else '-' :: collapseAux rest true

/-- `strings.Trim(s, "-")`: drop leading and trailing hyphens. -/
def trimDashes (l : List Char) : List Char :=
  ((l.dropWhile (fun c => c = '-')).reverse.dropWhile (fun c => c = '-')).reverse

/-- The `sanitize` closure of activities.go (generateReleaseName, lines
52-59): replace runs of non-alphanumeric characters with a hyphen, trim
leading and trailing hyphens, lower-case. After replacement all
characters are ASCII, so `Char.toLower` agrees with Go `strings.ToLower`. -/
def sanitize (s : String) : String :=
  String.mk ((trimDashes (collapseAux s.data false)).map Char.toLower)

/-- HelmUndeployRequest. Fields GitHubOrg, RepoName, BranchName,
PRNumber, Wait, Timeout are declared in activities/activities.go (lines
21-28). DryRun is read by workflows/workflow.go (lines 24, 50, 60) on
this same request type although the declaration in activities.go does
not list it; it is included here so the orchestrator embeds. `Timeout`
is a Go `time.Duration` (integer nanoseconds). -/
structure HelmUndeployRequest where
  GitHubOrg : String
  RepoName : String
  BranchName : String
  PRNumber : Option Int
  Wait : Bool
  Timeout : Int
  DryRun : Bool
deriving DecidableEq, Repr

/-- generateReleaseName (activities/activities.go lines 50-76): sanitize
repo and branch; a pull-request number yields `{repo}-pr-{number}`;
a sanitized branch equal to "main" or "master" yields the repo name
alone; otherwise `{repo}-{branch}`. -/
def generateReleaseName (request : HelmUndeployRequest) : String :=
  let repoName := sanitize request.RepoName
  let branchName := sanitize request.BranchName
  match request.PRNumber with
  | some n => repoName ++ "-pr-" ++ toString n
  | none =>
    if branchName == "main" || branchName == "master" then repoName
    else repoName ++ "-" ++ branchName

/-- ValidateReleaseResponse (activities/activities.go lines 78-83):
Exists, Status, Version, UpdatedTime. The orchestrator additionally
reads a `ReleaseName` field from this type (workflows/workflow.go lines
61 and 64) that the declaration in activities.go does not contain and
that ValidateReleaseActivity never assigns; it is included here so the
orchestrator embeds, and every response the activity builds leaves it at
the Go zero value, the empty string. `UpdatedTime` is a Unix instant. -/
structure ValidateReleaseResponse where
  Exists : Bool
  Status : String
  Version : Int
  UpdatedTime : Int
  ReleaseName : String
deriving DecidableEq, Repr

/-- UndeployReleaseResponse (activities/activities.go lines 127-130). -/
structure UndeployReleaseResponse where
  Success : Bool
  Message : String
deriving DecidableEq, Repr

/-- VerifyUndeployResponse (activities/activities.go lines 169-173). -/
structure VerifyUndeployResponse where
  Verified : Bool
  ResourcesRemoved : Bool
  Message : String
deriving DecidableEq, Repr

/-- HelmUndeployResponse (workflows/workflow.go lines 11-15); the
terminal outcome of one run. `Timestamp` is the `time.Now()` stamp. -/
structure HelmUndeployResponse where
  Success : Bool
  Message : String
  Timestamp : Int
deriving DecidableEq, Repr

/-- The three activities the orchestrator can execute, in the names of
workflows/workflow.go: ValidateReleaseActivity, UndeployReleaseActivity
(the Destroy step of the spec), VerifyUndeployActivity. -/
inductive ActivityName where
  | validate
  | undeploy
  | verify
deriving DecidableEq, Repr

/-- Result of one `workflow.ExecuteActivity(...).Get` call as the
orchestrator observes it: either the decoded response, or the error the
host reports after retry exhaustion (its detail string). -/
inductive ActivityResult (α : Type) where
  | ok (val : α)
  | err (msg : String)
deriving DecidableEq, Repr

/-- The durably recorded result each activity invocation would yield in
one run, plus the wall-clock instant stamped into the outcome. The
orchestrator consults these in program order; entries for activities it
never reaches are simply unused. -/
structure ActivityEnv where
  validate : ActivityResult ValidateReleaseResponse
  undeploy : ActivityResult UndeployReleaseResponse
  verify : ActivityResult VerifyUndeployResponse
  now : Int
deriving DecidableEq, Repr

/-- Observable behaviour of one orchestration run: the terminal
response, the error value returned alongside it (`some` of the failure
detail when the Go function returns a non-nil error), and the sequence
of activities the orchestrator executed. -/
structure WorkflowRun where
  response : HelmUndeployResponse
  error : Option String
  invoked : List ActivityName
deriving DecidableEq, Repr

/-- HelmUndeployWorkflow (workflows/workflow.go lines 17-97), written
over the recorded activity results. Mirrors the Go control flow: a
Validate error returns failure and propagates the error; a missing
release returns failure (with a dry-run variant of the message); dry-run
returns success without destroying; an Undeploy error returns failure
and propagates; otherwise Verify runs exactly when `Wait` is set and the
undeploy response reports success, a Verify error is only logged, and
the outcome mirrors the undeploy response. -/
def helmUndeployWorkflow (request : HelmUndeployRequest) (env : ActivityEnv) : WorkflowRun :=
  match env.validate with
  | ActivityResult.err e =>
    { response := { Success := false, Message := "Failed to validate release: " ++ e, Timestamp := env.now }
      error := some e
      invoked := [ActivityName.validate] }
  | ActivityResult.ok validateResp =>
    if !validateResp.Exists then
      { response :=
          { Success := false
            Message := if request.DryRun then "DRY-RUN: Release not found (would fail if executed)" else "Release not found"
            Timestamp := env.now }
        error := none
        invoked := [ActivityName.validate] }
    else if request.DryRun then
      { response :=
          { Success := true
            Message := "DRY-RUN: Would undeploy release " ++ validateResp.ReleaseName
            Timestamp := env.now }
        error := none
        invoked := [ActivityName.validate] }
    else
      match env.undeploy with
      | ActivityResult.err e =>
        { response := { Success := false, Message := "Failed to undeploy release: " ++ e, Timestamp := env.now }
          error := some e
          invoked := [ActivityName.validate, ActivityName.undeploy] }
      | ActivityResult.ok undeployResp =>
        if request.Wait && undeployResp.Success then
          { response := { Success := undeployResp.Success, Message := undeployResp.Message, Timestamp := env.now }
            error := none
            invoked := [ActivityName.validate, ActivityName.undeploy, ActivityName.verify] }
        else
          { response := { Success := undeployResp.Success, Message := undeployResp.Message, Timestamp := env.now }
            error := none
            invoked := [ActivityName.validate, ActivityName.undeploy] }

/-- Character-list test: the first list is an initial segment of the
second. Helper for the substring test below. -/
def charsStarts : List Char → List Char → Bool
  | [], _ => true
  | _ :: _, [] => false
  | a :: as, b :: bs => a == b && charsStarts as bs

/-- Character-list test: the first list occurs contiguously inside the
second. Helper for the list-filter model below. -/
def charsHas : List Char → List Char → Bool
  | needle, [] => charsStarts needle []
  | needle, b :: rest => charsStarts needle (b :: rest) || charsHas needle rest

/-- `strHas hay needle` is true when `needle` occurs inside `hay`. -/
def strHas (hay needle : String) : Bool :=
  charsHas needle.data hay.data

/-- One release recorded in the Release Store, with the fields the
Validate activity reads (name, status string, revision, last-deployed
instant) and whether the release is in the deployed state. -/
structure HelmRelease where
  name : String
  status : String
  version : Int
  lastDeployed : Int
  deployed : Bool
deriving DecidableEq, Repr

/-- Model of the Release Store listing the Validate activity performs
(activities/activities.go lines 102-106): `action.NewList` with
`Deployed = true` and `Filter` set to the generated release name. The
Helm list filter is an unanchored regular expression; generated release
names contain only ASCII letters, digits and hyphens, none of which is
a regex metacharacter, so for these filters the match is exactly a
substring test. Returns the deployed releases whose name contains the
filter. -/
def helmListRun (store : List HelmRelease) (filter : String) : List HelmRelease :=
  store.filter (fun r => r.deployed && charsHas filter.data r.name.data)

/-- ValidateReleaseActivity (activities/activities.go lines 85-125) over
a Release Store state: generate the release name, list deployed releases
matching it as a filter, and return the first release whose name is
exactly equal; otherwise return `Exists := false` with zero-valued
fields (the Go literal sets only `Exists`). The response never carries
the release name (the struct declares no such field). -/
def validateReleaseActivity (store : List HelmRelease) (request : HelmUndeployRequest) : ValidateReleaseResponse :=
  let releaseName := generateReleaseName request
  match (helmListRun store releaseName).find? (fun r => r.name == releaseName) with
  | some r =>
    { Exists := true, Status := r.status, Version := r.version, UpdatedTime := r.lastDeployed, ReleaseName := "" }
  | none =>
    { Exists := false, Status := "", Version := 0, UpdatedTime := 0, ReleaseName := "" }

/-- temporal.RetryPolicy as configured in workflows/workflow.go lines
28-33. The backoff coefficient 2.0 is integral, represented exactly. -/
structure RetryPolicy where
  initialIntervalSec : Nat
  backoffCoefficient : Rat
  maximumIntervalSec : Nat
  maximumAttempts : Nat
deriving DecidableEq, Repr

/-- workflow.ActivityOptions as configured in workflows/workflow.go
lines 26-34: start-to-close timeout in seconds plus the retry policy. -/
structure ActivityOptions where
  startToCloseTimeoutSec : Nat
  retryPolicy : RetryPolicy
deriving DecidableEq, Repr

/-- The single options value `ao` built in workflows/workflow.go lines
26-34: start-to-close 10 minutes, initial interval 1 second, backoff
coefficient 2.0, maximum interval 1 minute, maximum 3 attempts. -/
def workflowActivityOptions : ActivityOptions :=
  { startToCloseTimeoutSec := 600
    retryPolicy :=
      { initialIntervalSec := 1
        backoffCoefficient := 2
        maximumIntervalSec := 60
        maximumAttempts := 3 } }

/-- The options under which each activity executes. workflow.go installs
the single `ao` once (`workflow.WithActivityOptions`, line 35) and every
one of the three ExecuteActivity calls runs under that same context, so
the mapping is constant in both the activity and the request. -/
def optionsForActivity (_request : HelmUndeployRequest) (_a : ActivityName) : ActivityOptions :=
  workflowActivityOptions

/-- The workflow ID the submitting client builds when no explicit ID was
passed (main.go for the org/repo/branch shape, src/unnamed/part_000
lines 190-198): `helm-undeploy-{org}-{repo}-pr-{n}-{unix}` for a
pull-request deployment, `helm-undeploy-{org}-{repo}-{branch}-{unix}`
otherwise, where `{unix}` is `time.Now().Unix()` at submission. -/
def workflowIdFor (githubOrg repoName branchName : String) (prNumber : Option Int) (nowUnix : Int) : String :=
  match prNumber with
  | some n =>
    "helm-undeploy-" ++ githubOrg ++ "-" ++ repoName ++ "-pr-" ++ toString n ++ "-" ++ toString nowUnix
  | none =>
    "helm-undeploy-" ++ githubOrg ++ "-" ++ repoName ++ "-" ++ branchName ++ "-" ++ toString nowUnix

/-- Model of run admission by the Durable Execution Host, from the spec
contract that the hosting engine enforces uniqueness of the run key: a
new run is admitted exactly when no in-flight run holds an equal
workflow ID. -/
def admitsRun (inFlight : List String) (workflowId : String) : Bool :=
  !(inFlight.contains workflowId)

example : sanitize "feature/X_1" = "feature-x-1" := by decide
example : sanitize "--MAIN." = "main" := by decide
example : sanitize "!!!" = "" := by decide
example : generateReleaseName ⟨"org", "my-app", "feature/X_1", none, true, 0, false⟩ = "my-app-feature-x-1" := by decide
example : generateReleaseName ⟨"org", "My-App", "main", some 42, true, 0, false⟩ = "my-app-pr-42" := by decide
example : generateReleaseName ⟨"o", "!!!", "foo", none, true, 0, false⟩ = "-foo" := by decide

/-- Claim C1: whenever the Validate activity returns a response with
`Exists = false`, the orchestrator executes only Validate (never the
Undeploy/Destroy or Verify activities), returns no error, and the
terminal outcome has `success = false` with the not-found message
(its dry-run informational variant under `DryRun`). -/
theorem validate_not_found_skips_destroy_and_verify
    (request : HelmUndeployRequest) (env : ActivityEnv) (v : ValidateReleaseResponse)
    (hval : env.validate = ActivityResult.ok v) (hex : v.Exists = false) :
    (helmUndeployWorkflow request env).invoked = [ActivityName.validate] ∧
    ActivityName.undeploy ∉ (helmUndeployWorkflow request env).invoked ∧
    ActivityName.verify ∉ (helmUndeployWorkflow request env).invoked ∧
    (helmUndeployWorkflow request env).error = none ∧
    (helmUndeployWorkflow request env).response.Success = false ∧
    (helmUndeployWorkflow request env).response.Message =
      (if request.DryRun then "DRY-RUN: Release not found (would fail if executed)"
       else "Release not found") := by
  simp only [helmUndeployWorkflow, hval, hex]
  refine ⟨rfl, ?_, ?_, rfl, rfl, rfl⟩
  · exact fun hmem =>
      absurd (show ActivityName.undeploy ∈ [ActivityName.validate] from hmem) (by decide)
  · exact fun hmem =>
      absurd (show ActivityName.verify ∈ [ActivityName.validate] from hmem) (by decide)

/-- Witness for `validate_not_found_skips_destroy_and_verify` at a
concrete request and recorded results. -/
theorem validate_not_found_skips_destroy_and_verify_witness :
    (helmUndeployWorkflow ⟨"o", "r", "b", none, true, 0, false⟩
        ⟨ActivityResult.ok ⟨false, "", 0, 0, ""⟩, ActivityResult.err "", ActivityResult.err "", 0⟩).invoked =
      [ActivityName.validate] ∧
    ActivityName.undeploy ∉
      (helmUndeployWorkflow ⟨"o", "r", "b", none, true, 0, false⟩
        ⟨ActivityResult.ok ⟨false, "", 0, 0, ""⟩, ActivityResult.err "", ActivityResult.err "", 0⟩).invoked ∧
    ActivityName.verify ∉
      (helmUndeployWorkflow ⟨"o", "r", "b", none, true, 0, false⟩
        ⟨ActivityResult.ok ⟨false, "", 0, 0, ""⟩, ActivityResult.err "", ActivityResult.err "", 0⟩).invoked ∧
    (helmUndeployWorkflow ⟨"o", "r", "b", none, true, 0, false⟩
        ⟨ActivityResult.ok ⟨false, "", 0, 0, ""⟩, ActivityResult.err "", ActivityResult.err "", 0⟩).error = none ∧
    (helmUndeployWorkflow ⟨"o", "r", "b", none, true, 0, false⟩
        ⟨ActivityResult.ok ⟨false, "", 0, 0, ""⟩, ActivityResult.err "", ActivityResult.err "", 0⟩).response.Success = false ∧
    (helmUndeployWorkflow ⟨"o", "r", "b", none, true, 0, false⟩
        ⟨ActivityResult.ok ⟨false, "", 0, 0, ""⟩, ActivityResult.err "", ActivityResult.err "", 0⟩).response.Message =
      (if (⟨"o", "r", "b", none, true, 0, false⟩ : HelmUndeployRequest).DryRun
       then "DRY-RUN: Release not found (would fail if executed)"
       else "Release not found") :=
  validate_not_found_skips_destroy_and_verify _ _ ⟨false, "", 0, 0, ""⟩ rfl rfl

/-- Claim C3: in every run that reaches the Destroy step and obtains a
recorded UndeployReleaseResponse, the Verify activity is executed if and
only if `Wait = true` and the response reports success, and the terminal
outcome mirrors that response (success flag and message) with no error,
for every possible Verify result. -/
theorem destroy_result_gates_verify_and_fixes_outcome
    (request : HelmUndeployRequest) (env : ActivityEnv)
    (v : ValidateReleaseResponse) (u : UndeployReleaseResponse)
    (hval : env.validate = ActivityResult.ok v) (hex : v.Exists = true)
    (hdry : request.DryRun = false) (hund : env.undeploy = ActivityResult.ok u) :
    (ActivityName.verify ∈ (helmUndeployWorkflow request env).invoked ↔
      request.Wait = true ∧ u.Success = true) ∧
    (helmUndeployWorkflow request env).response.Success = u.Success ∧
    (helmUndeployWorkflow request env).response.Message = u.Message ∧
    (helmUndeployWorkflow request env).error = none := by
  simp only [helmUndeployWorkflow, hval, hex, hdry, hund, Bool.not_true, if_false]
  by_cases hw : request.Wait = true ∧ u.Success = true
  · simp [hw.1, hw.2]
  · have hb : (request.Wait && u.Success) = false := by
      cases hWait : request.Wait with
      | false => simp
      | true =>
        cases hS : u.Success with
        | false => simp
        | true => exact absurd ⟨hWait, hS⟩ hw
    simp only [hb]
    refine ⟨?_, rfl, rfl, rfl⟩
    constructor
    · intro hmem
      exact absurd
        (show ActivityName.verify ∈ [ActivityName.validate, ActivityName.undeploy] from hmem)
        (by decide)
    · intro hw2
      exact absurd hw2 hw

/-- Witness for `destroy_result_gates_verify_and_fixes_outcome` at a
concrete run in which the recorded Verify result is a failure and the
destroy succeeded: the outcome still mirrors the destroy response. -/
theorem destroy_result_gates_verify_and_fixes_outcome_witness :
    (ActivityName.verify ∈
        (helmUndeployWorkflow ⟨"o", "r", "b", none, true, 0, false⟩
          ⟨ActivityResult.ok ⟨true, "deployed", 1, 0, ""⟩, ActivityResult.ok ⟨true, "Release r uninstalled. Status: done"⟩,
           ActivityResult.err "verify boom", 0⟩).invoked ↔
      (⟨"o", "r", "b", none, true, 0, false⟩ : HelmUndeployRequest).Wait = true ∧
        (⟨true, "Release r uninstalled. Status: done"⟩ : UndeployReleaseResponse).Success = true) ∧
    (helmUndeployWorkflow ⟨"o", "r", "b", none, true, 0, false⟩
        ⟨ActivityResult.ok ⟨true, "deployed", 1, 0, ""⟩, ActivityResult.ok ⟨true, "Release r uninstalled. Status: done"⟩,
         ActivityResult.err "verify boom", 0⟩).response.Success =
      (⟨true, "Release r uninstalled. Status: done"⟩ : UndeployReleaseResponse).Success ∧
    (helmUndeployWorkflow ⟨"o", "r", "b", none, true, 0, false⟩
        ⟨ActivityResult.ok ⟨true, "deployed", 1, 0, ""⟩, ActivityResult.ok ⟨true, "Release r uninstalled. Status: done"⟩,
         ActivityResult.err "verify boom", 0⟩).response.Message =
      (⟨true, "Release r uninstalled. Status: done"⟩ : UndeployReleaseResponse).Message ∧
    (helmUndeployWorkflow ⟨"o", "r", "b", none, true, 0, false⟩
        ⟨ActivityResult.ok ⟨true, "deployed", 1, 0, ""⟩, ActivityResult.ok ⟨true, "Release r uninstalled. Status: done"⟩,
         ActivityResult.err "verify boom", 0⟩).error = none :=
  destroy_result_gates_verify_and_fixes_outcome _ _ ⟨true, "deployed", 1, 0, ""⟩
    ⟨true, "Release r uninstalled. Status: done"⟩ rfl rfl rfl rfl

/-- Claim C6: a permanent Validate failure, and a permanent Undeploy
(Destroy) failure reached with an existing release outside dry-run, each
end the run with `success = false`, a message carrying the underlying
failure detail string, and the error value itself returned to the
caller — the failure is never swallowed. -/
theorem activity_failure_propagates
    (request : HelmUndeployRequest) (env1 env2 : ActivityEnv)
    (e1 e2 : String) (v : ValidateReleaseResponse)
    (h1 : env1.validate = ActivityResult.err e1)
    (h2 : env2.validate = ActivityResult.ok v) (h3 : v.Exists = true)
    (h4 : request.DryRun = false) (h5 : env2.undeploy = ActivityResult.err e2) :
    ((helmUndeployWorkflow request env1).response.Success = false ∧
     (helmUndeployWorkflow request env1).response.Message = "Failed to validate release: " ++ e1 ∧
     (helmUndeployWorkflow request env1).error = some e1) ∧
    ((helmUndeployWorkflow request env2).response.Success = false ∧
     (helmUndeployWorkflow request env2).response.Message = "Failed to undeploy release: " ++ e2 ∧
     (helmUndeployWorkflow request env2).error = some e2) := by
  constructor
  · simp [helmUndeployWorkflow, h1]
  · simp [helmUndeployWorkflow, h2, h3, h4, h5]

/-- Witness for `activity_failure_propagates`: one run whose Validate
fails with detail "store unreachable", one whose Undeploy fails with
detail "uninstall failed". -/
theorem activity_failure_propagates_witness :
    ((helmUndeployWorkflow ⟨"o", "r", "b", none, true, 0, false⟩
        ⟨ActivityResult.err "store unreachable", ActivityResult.err "", ActivityResult.err "", 0⟩).response.Success = false ∧
     (helmUndeployWorkflow ⟨"o", "r", "b", none, true, 0, false⟩
        ⟨ActivityResult.err "store unreachable", ActivityResult.err "", ActivityResult.err "", 0⟩).response.Message =
       "Failed to validate release: " ++ "store unreachable" ∧
     (helmUndeployWorkflow ⟨"o", "r", "b", none, true, 0, false⟩
        ⟨ActivityResult.err "store unreachable", ActivityResult.err "", ActivityResult.err "", 0⟩).error =
       some "store unreachable") ∧
    ((helmUndeployWorkflow ⟨"o", "r", "b", none, true, 0, false⟩
        ⟨ActivityResult.ok ⟨true, "deployed", 1, 0, ""⟩, ActivityResult.err "uninstall failed", ActivityResult.err "", 0⟩).response.Success = false ∧
     (helmUndeployWorkflow ⟨"o", "r", "b", none, true, 0, false⟩
        ⟨ActivityResult.ok ⟨true, "deployed", 1, 0, ""⟩, ActivityResult.err "uninstall failed", ActivityResult.err "", 0⟩).response.Message =
       "Failed to undeploy release: " ++ "uninstall failed" ∧
     (helmUndeployWorkflow ⟨"o", "r", "b", none, true, 0, false⟩
        ⟨ActivityResult.ok ⟨true, "deployed", 1, 0, ""⟩, ActivityResult.err "uninstall failed", ActivityResult.err "", 0⟩).error =
       some "uninstall failed") :=
  activity_failure_propagates ⟨"o", "r", "b", none, true, 0, false⟩ _ _
    "store unreachable" "uninstall failed" ⟨true, "deployed", 1, 0, ""⟩ rfl rfl rfl rfl rfl

/-- Claim C2 (divergence witness): a dry run against a store in which
the resolved release "my-app" is deployed. The orchestrator does skip
the Undeploy (Destroy) activity and does return `success = true`, but
the outcome message is the bare "DRY-RUN: Would undeploy release "
followed by nothing: workflows/workflow.go line 64 appends
`validateResp.ReleaseName`, a field the ValidateReleaseResponse
declaration in activities.go does not contain and the activity never
assigns, so the message does not contain the resolved identity
"my-app". -/
theorem dry_run_message_lacks_resolved_identity :
    generateReleaseName ⟨"org", "my-app", "main", none, true, 0, true⟩ = "my-app" ∧
    (validateReleaseActivity [⟨"my-app", "deployed", 1, 0, true⟩]
        ⟨"org", "my-app", "main", none, true, 0, true⟩).Exists = true ∧
    (helmUndeployWorkflow ⟨"org", "my-app", "main", none, true, 0, true⟩
        ⟨ActivityResult.ok (validateReleaseActivity [⟨"my-app", "deployed", 1, 0, true⟩]
            ⟨"org", "my-app", "main", none, true, 0, true⟩),
         ActivityResult.err "", ActivityResult.err "", 0⟩).response.Success = true ∧
    ActivityName.undeploy ∉
      (helmUndeployWorkflow ⟨"org", "my-app", "main", none, true, 0, true⟩
        ⟨ActivityResult.ok (validateReleaseActivity [⟨"my-app", "deployed", 1, 0, true⟩]
            ⟨"org", "my-app", "main", none, true, 0, true⟩),
         ActivityResult.err "", ActivityResult.err "", 0⟩).invoked ∧
    (helmUndeployWorkflow ⟨"org", "my-app", "main", none, true, 0, true⟩
        ⟨ActivityResult.ok (validateReleaseActivity [⟨"my-app", "deployed", 1, 0, true⟩]
            ⟨"org", "my-app", "main", none, true, 0, true⟩),
         ActivityResult.err "", ActivityResult.err "", 0⟩).response.Message =
      "DRY-RUN: Would undeploy release " ∧
    strHas "DRY-RUN: Would undeploy release "
      (generateReleaseName ⟨"org", "my-app", "main", none, true, 0, true⟩) = false := by
  decide

/-- Claim C4: without a pull-request number, the resolved identity is
the sanitized repo name alone when the sanitized branch is "main" or
"master" (sanitization already lower-cases and strips surrounding
punctuation), and `{repo}-{branch}` on the sanitized components
otherwise; concretely, repo "my-app" with branch "feature/X_1" resolves
to "my-app-feature-x-1". -/
theorem branch_identity_rule
    (request : HelmUndeployRequest) (hpr : request.PRNumber = none) :
    generateReleaseName request =
      (if sanitize request.BranchName = "main" ∨ sanitize request.BranchName = "master"
       then sanitize request.RepoName
       else sanitize request.RepoName ++ "-" ++ sanitize request.BranchName) ∧
    sanitize "feature/X_1" = "feature-x-1" ∧
    sanitize "--MAIN." = "main" ∧
    sanitize "Master!" = "master" ∧
    generateReleaseName ⟨"org", "my-app", "feature/X_1", none, true, 0, false⟩ =
      "my-app-feature-x-1" := by
  refine ⟨?_, by decide, by decide, by decide, by decide⟩
  by_cases h : sanitize request.BranchName = "main" ∨ sanitize request.BranchName = "master"
  · rcases h with h | h <;> simp [generateReleaseName, hpr, h]
  · rw [not_or] at h
    simp [generateReleaseName, hpr, h.1, h.2]

/-- Witness for `branch_identity_rule` at repo "my-app", branch
"feature/X_1". -/
theorem branch_identity_rule_witness :
    generateReleaseName ⟨"org", "my-app", "feature/X_1", none, true, 0, false⟩ =
      (if sanitize (HelmUndeployRequest.BranchName ⟨"org", "my-app", "feature/X_1", none, true, 0, false⟩) = "main" ∨
          sanitize (HelmUndeployRequest.BranchName ⟨"org", "my-app", "feature/X_1", none, true, 0, false⟩) = "master"
       then sanitize (HelmUndeployRequest.RepoName ⟨"org", "my-app", "feature/X_1", none, true, 0, false⟩)
       else sanitize (HelmUndeployRequest.RepoName ⟨"org", "my-app", "feature/X_1", none, true, 0, false⟩) ++ "-" ++
         sanitize (HelmUndeployRequest.BranchName ⟨"org", "my-app", "feature/X_1", none, true, 0, false⟩)) ∧
    sanitize "feature/X_1" = "feature-x-1" ∧
    sanitize "--MAIN." = "main" ∧
    sanitize "Master!" = "master" ∧
    generateReleaseName ⟨"org", "my-app", "feature/X_1", none, true, 0, false⟩ =
      "my-app-feature-x-1" :=
  branch_identity_rule ⟨"org", "my-app", "feature/X_1", none, true, 0, false⟩ rfl

/-- Claim C5: with a pull-request number present, the resolved identity
is `{sanitized repo}-pr-{number}` regardless of the branch name (the
pull-request case is checked before the main/master case); concretely,
repo "My-App" with number 42 resolves to "my-app-pr-42", even when the
branch is "main". -/
theorem pr_identity_rule
    (request : HelmUndeployRequest) (n : Int) (hpr : request.PRNumber = some n) :
    generateReleaseName request = sanitize request.RepoName ++ "-pr-" ++ toString n ∧
    generateReleaseName ⟨"org", "My-App", "main", some 42, true, 0, false⟩ = "my-app-pr-42" := by
  refine ⟨?_, by decide⟩
  simp [generateReleaseName, hpr]

/-- Witness for `pr_identity_rule` at repo "My-App", branch "main",
pull-request number 42. -/
theorem pr_identity_rule_witness :
    generateReleaseName ⟨"org", "My-App", "main", some 42, true, 0, false⟩ =
      sanitize (HelmUndeployRequest.RepoName ⟨"org", "My-App", "main", some 42, true, 0, false⟩) ++
        "-pr-" ++ toString (42 : Int) ∧
    generateReleaseName ⟨"org", "My-App", "main", some 42, true, 0, false⟩ = "my-app-pr-42" :=
  pr_identity_rule ⟨"org", "My-App", "main", some 42, true, 0, false⟩ 42 rfl

/-- Claim C7 (counterexample): the options handed to the execution host
are not differentiated per activity. At a request whose explicit
timeout bound is 20 minutes, Validate runs under a 10-minute (600
second) start-to-close budget rather than about 2 minutes, Verify runs
with 3 maximum attempts rather than 2, Undeploy (Destroy) keeps the
600-second budget rather than the larger requested bound, and all three
activities receive the very same options value. -/
theorem per_activity_policy_counterexample :
    (optionsForActivity ⟨"o", "r", "b", none, true, 1200000000000, false⟩
        ActivityName.validate).startToCloseTimeoutSec = 600 ∧
    (optionsForActivity ⟨"o", "r", "b", none, true, 1200000000000, false⟩
        ActivityName.verify).retryPolicy.maximumAttempts = 3 ∧
    (optionsForActivity ⟨"o", "r", "b", none, true, 1200000000000, false⟩
        ActivityName.undeploy).startToCloseTimeoutSec = 600 ∧
    optionsForActivity ⟨"o", "r", "b", none, true, 1200000000000, false⟩ ActivityName.validate =
      optionsForActivity ⟨"o", "r", "b", none, true, 1200000000000, false⟩ ActivityName.undeploy ∧
    optionsForActivity ⟨"o", "r", "b", none, true, 1200000000000, false⟩ ActivityName.undeploy =
      optionsForActivity ⟨"o", "r", "b", none, true, 1200000000000, false⟩ ActivityName.verify :=
  ⟨rfl, rfl, rfl, rfl, rfl⟩

/-- Claim C7 (amended): a single undifferentiated options value is
installed once and governs all three activities for every request:
start-to-close timeout 10 minutes, up to 3 attempts, exponential
backoff with initial interval 1 second, coefficient 2.0, cap 1 minute;
the timeout bound carried by the request does not influence it. -/
theorem uniform_activity_policy (request : HelmUndeployRequest) (a : ActivityName) :
    optionsForActivity request a = workflowActivityOptions ∧
    workflowActivityOptions.startToCloseTimeoutSec = 600 ∧
    workflowActivityOptions.retryPolicy.initialIntervalSec = 1 ∧
    workflowActivityOptions.retryPolicy.backoffCoefficient = 2 ∧
    workflowActivityOptions.retryPolicy.maximumIntervalSec = 60 ∧
    workflowActivityOptions.retryPolicy.maximumAttempts = 3 :=
  ⟨rfl, rfl, rfl, rfl, rfl, rfl⟩

/-- Claim C8 (counterexample): a request whose repo name sanitizes to
the empty string is not rejected: the resolver silently produces the
identity "-foo", and the orchestrator still invokes the Validate
activity for it. -/
theorem empty_component_counterexample :
    sanitize "!!!" = "" ∧
    generateReleaseName ⟨"o", "!!!", "foo", none, true, 0, false⟩ = "-foo" ∧
    ActivityName.validate ∈
      (helmUndeployWorkflow ⟨"o", "!!!", "foo", none, true, 0, false⟩
        ⟨ActivityResult.ok ⟨false, "", 0, 0, ""⟩, ActivityResult.err "", ActivityResult.err "", 0⟩).invoked := by
  decide

/-- Claim C8 (amended): no input validation exists. Every run, whatever
the request, begins by invoking the Validate activity, and a repo or
branch identifier that is empty after sanitization is silently
incorporated into the release identity in every naming mode: an empty
repo with pull-request number n yields `-pr-{n}`, an empty repo with a
branch not sanitizing to "main" or "master" yields `-{branch}`, an
empty repo with a main/master branch yields the empty identity, and an
empty branch without a pull-request number yields `{repo}-`. -/
theorem no_empty_identifier_rejection
    (request : HelmUndeployRequest) (env : ActivityEnv) :
    ActivityName.validate ∈ (helmUndeployWorkflow request env).invoked ∧
    (∀ n, request.PRNumber = some n → sanitize request.RepoName = "" →
      generateReleaseName request = "-pr-" ++ toString n) ∧
    (request.PRNumber = none → sanitize request.RepoName = "" →
      ¬ sanitize request.BranchName = "main" → ¬ sanitize request.BranchName = "master" →
      generateReleaseName request = "-" ++ sanitize request.BranchName) ∧
    (request.PRNumber = none → sanitize request.RepoName = "" →
      (sanitize request.BranchName = "main" ∨ sanitize request.BranchName = "master") →
      generateReleaseName request = "") ∧
    (request.PRNumber = none → sanitize request.BranchName = "" →
      generateReleaseName request = sanitize request.RepoName ++ "-") := by
  refine ⟨?_, ?_, ?_, ?_, ?_⟩
  · cases henv : env.validate with
    | err e => simp [helmUndeployWorkflow, henv]
    | ok v =>
      cases hex : v.Exists with
      | false => simp [helmUndeployWorkflow, henv, hex]
      | true =>
        cases hdry : request.DryRun with
        | true => simp [helmUndeployWorkflow, henv, hex, hdry]
        | false =>
          cases hu : env.undeploy with
          | err e => simp [helmUndeployWorkflow, henv, hex, hdry, hu]
          | ok u =>
            cases hw : (request.Wait && u.Success) <;>
              simp [helmUndeployWorkflow, henv, hex, hdry, hu, hw]
  · intro n hpr hrepo
    simp only [generateReleaseName, hpr, hrepo]
    rfl
  · intro hpr hrepo h1 h2
    have hcond : (sanitize request.BranchName == "main" ||
        sanitize request.BranchName == "master") = false := by
      simp [h1, h2]
    simp only [generateReleaseName, hpr, hcond, hrepo]
    rfl
  · intro hpr hrepo hmm
    have hcond : (sanitize request.BranchName == "main" ||
        sanitize request.BranchName == "master") = true := by
      rcases hmm with h | h <;> simp [h]
    simp only [generateReleaseName, hpr, hcond, hrepo, if_true]
  · intro hpr hbr
    simp only [generateReleaseName, hpr, hbr]
    rw [if_neg (by decide), String.append_empty]

/-- Witness for `no_empty_identifier_rejection`, discharging each inner
hypothesis at concrete requests: repo "!!!" with pull-request 7, repo
"!!!" with branch "foo", repo "!!!" with branch "main", and repo "app"
with branch "!!!". -/
theorem no_empty_identifier_rejection_witness :
    ActivityName.validate ∈
      (helmUndeployWorkflow ⟨"o", "!!!", "foo", none, true, 0, false⟩
        ⟨ActivityResult.ok ⟨false, "", 0, 0, ""⟩, ActivityResult.err "", ActivityResult.err "", 0⟩).invoked ∧
    generateReleaseName ⟨"o", "!!!", "b", some 7, true, 0, false⟩ = "-pr-" ++ toString (7 : Int) ∧
    generateReleaseName ⟨"o", "!!!", "foo", none, true, 0, false⟩ = "-" ++ sanitize "foo" ∧
    generateReleaseName ⟨"o", "!!!", "main", none, true, 0, false⟩ = "" ∧
    generateReleaseName ⟨"o", "app", "!!!", none, true, 0, false⟩ = sanitize "app" ++ "-" :=
  ⟨(no_empty_identifier_rejection ⟨"o", "!!!", "foo", none, true, 0, false⟩
      ⟨ActivityResult.ok ⟨false, "", 0, 0, ""⟩, ActivityResult.err "", ActivityResult.err "", 0⟩).1,
   (no_empty_identifier_rejection ⟨"o", "!!!", "b", some 7, true, 0, false⟩
      ⟨ActivityResult.ok ⟨false, "", 0, 0, ""⟩, ActivityResult.err "", ActivityResult.err "", 0⟩).2.1
     7 rfl (by decide),
   (no_empty_identifier_rejection ⟨"o", "!!!", "foo", none, true, 0, false⟩
      ⟨ActivityResult.ok ⟨false, "", 0, 0, ""⟩, ActivityResult.err "", ActivityResult.err "", 0⟩).2.2.1
     rfl (by decide) (by decide) (by decide),
   (no_empty_identifier_rejection ⟨"o", "!!!", "main", none, true, 0, false⟩
      ⟨ActivityResult.ok ⟨false, "", 0, 0, ""⟩, ActivityResult.err "", ActivityResult.err "", 0⟩).2.2.2.1
     rfl (by decide) (Or.inl (by decide)),
   (no_empty_identifier_rejection ⟨"o", "app", "!!!", none, true, 0, false⟩
      ⟨ActivityResult.ok ⟨false, "", 0, 0, ""⟩, ActivityResult.err "", ActivityResult.err "", 0⟩).2.2.2.2
     rfl (by decide)⟩

/-- Claim C9 (counterexample): the run key is not determined by the
resolved identity alone. Two submissions with identical identifiers
(org "org", repo "app", branch "main", no pull request) at Unix seconds
1000 and 1001 receive distinct workflow IDs, and the uniqueness-based
admission model admits the second run while the first is in flight. -/
theorem run_key_not_identity_unique :
    workflowIdFor "org" "app" "main" none 1000 ≠ workflowIdFor "org" "app" "main" none 1001 ∧
    admitsRun [workflowIdFor "org" "app" "main" none 1000]
      (workflowIdFor "org" "app" "main" none 1001) = true := by
  decide

/-- Claim C9 (amended): the client-built run key embeds the submission
wall-clock second next to the raw identifiers, and the host
deduplicates only equal keys; hence two submissions for the same
identifiers whose timestamps print differently obtain distinct keys,
and the second is admitted while the first is in flight rather than
rejected, queued, or deduplicated. -/
theorem dedup_only_on_equal_run_key
    (githubOrg repoName branchName : String) (prNumber : Option Int) (t1 t2 : Int)
    (hts : toString t1 ≠ toString t2) :
    workflowIdFor githubOrg repoName branchName prNumber t1 ≠
      workflowIdFor githubOrg repoName branchName prNumber t2 ∧
    admitsRun [workflowIdFor githubOrg repoName branchName prNumber t1]
      (workflowIdFor githubOrg repoName branchName prNumber t2) = true := by
  have hne : workflowIdFor githubOrg repoName branchName prNumber t1 ≠
      workflowIdFor githubOrg repoName branchName prNumber t2 := by
    intro h
    apply hts
    cases prNumber with
    | none =>
      simp only [workflowIdFor] at h
      have hd := congrArg String.data h
      rw [String.data_append, String.data_append] at hd
      exact String.ext (List.append_cancel_left hd)
    | some n =>
      simp only [workflowIdFor] at h
      have hd := congrArg String.data h
      rw [String.data_append, String.data_append] at hd
      exact String.ext (List.append_cancel_left hd)
  refine ⟨hne, ?_⟩
  simp [admitsRun, List.contains, Ne.symm hne]

/-- Witness for `dedup_only_on_equal_run_key` at identical identifiers
and Unix seconds 1000 and 1001. -/
theorem dedup_only_on_equal_run_key_witness :
    workflowIdFor "org" "app" "main" none 1000 ≠ workflowIdFor "org" "app" "main" none 1001 ∧
    admitsRun [workflowIdFor "org" "app" "main" none 1000]
      (workflowIdFor "org" "app" "main" none 1001) = true :=
  dedup_only_on_equal_run_key "org" "app" "main" none 1000 1001 (by decide)

/-- A character list is an initial segment of itself. -/
theorem charsStarts_self (l : List Char) : charsStarts l l = true := by
  induction l with
  | nil => rfl
  | cons a as ih => simp [charsStarts, ih]

/-- A character list occurs inside itself. -/
theorem charsHas_self (l : List Char) : charsHas l l = true := by
  cases l with
  | nil => rfl
  | cons b rest => simp [charsHas, charsStarts_self]

/-- Claim C10: the Validate activity reports `Exists = true` exactly
when the deployed-release listing of the store contains a release whose
name is equal to the generated release name; a deployed release that
merely matches the list filter without being name-equal never does, as
the concrete conjunct shows for stored release "my-app-2" against the
generated name "my-app", where the activity returns `Exists = false`. -/
theorem validate_exists_iff_exact_deployed_match
    (store : List HelmRelease) (request : HelmUndeployRequest) :
    ((validateReleaseActivity store request).Exists = true ↔
      ∃ r ∈ store, r.deployed = true ∧ r.name = generateReleaseName request) ∧
    (validateReleaseActivity [⟨"my-app-2", "deployed", 1, 0, true⟩]
        ⟨"o", "my-app", "main", none, true, 0, false⟩).Exists = false := by
  refine ⟨?_, by decide⟩
  have hE : (validateReleaseActivity store request).Exists =
      ((helmListRun store (generateReleaseName request)).find?
        (fun r => r.name == generateReleaseName request)).isSome := by
    simp only [validateReleaseActivity]
    cases h : (helmListRun store (generateReleaseName request)).find?
        (fun r => r.name == generateReleaseName request) <;> simp [h]
  rw [hE, List.find?_isSome]
  constructor
  · rintro ⟨r, hmem, hpred⟩
    simp only [helmListRun, List.mem_filter] at hmem
    have hsplit : r.deployed = true ∧
        charsHas (generateReleaseName request).data r.name.data = true := by
      simpa using hmem.2
    exact ⟨r, hmem.1, hsplit.1, by simpa using hpred⟩
  · rintro ⟨r, hmem, hdep, hname⟩
    refine ⟨r, ?_, by simp [hname]⟩
    simp only [helmListRun, List.mem_filter]
    exact ⟨hmem, by simp [hdep, hname, charsHas_self]⟩

end HelmUndeploy
